import Mathlib

/-!
Verification of the unit-conversion core of `src/include/converter.h`.

The C++ computes in single-precision `float`; the embedding uses exact
rationals (`ℚ`) for the same arithmetic expressions, so every identity we
prove is the exact-arithmetic content of the code, and floating-point
rounding is the only gap.  Each definition mirrors one entity of the
source, keeping its name where Lean allows it.
-/

namespace Converter

/-- Mirrors `class linear`: an affine map with a precomputed reciprocal
(`m_divider = 1/factor`), as stored after a successful construction. -/
structure linear where
  m_factor : ℚ
  m_divider : ℚ
  m_offset : ℚ

/-- The epsilon threshold of the `linear` constructor (`1e-10f`). -/
@[simp] def EPSILON : ℚ := 1 / 10 ^ 10

/-- Mirrors the `linear(float factor, float offset)` constructor: it throws
(modelled as `none`) when `|factor| < EPSILON`, otherwise stores the
factor, its reciprocal `m_divider = 1/factor` and the offset. -/
@[simp] def linear.construct (factor offset : ℚ) : Option linear :=
  if |factor| < EPSILON then none
  else some ⟨factor, 1 / factor, offset⟩

/-- `linear::forward`: `m_factor * value + m_offset`. -/
@[simp] def linear.forward (l : linear) (value : ℚ) : ℚ :=
  l.m_factor * value + l.m_offset

/-- `linear::backward`: `(value - m_offset) * m_divider`. -/
@[simp] def linear.backward (l : linear) (value : ℚ) : ℚ :=
  (value - l.m_offset) * l.m_divider

/- Metric signatures, as declared in the source. -/
@[simp] def gramm.signature : String := "g"
@[simp] def lb.signature : String := "lb"
@[simp] def pood.signature : String := "p"
@[simp] def meter.signature : String := "m"
@[simp] def mile.signature : String := "ml"
@[simp] def verst.signature : String := "v"
@[simp] def celsius.signature : String := "c"
@[simp] def fahrenheit.signature : String := "f"
@[simp] def kelvin.signature : String := "k"

/-- A `metric_conversion_type<_primary,_minor>` as the converters use it:
its `forward` and `backward` member functions (after any per-pair
override, as in the `celsius`/`fahrenheit` specialization). -/
structure metric_conversion where
  forward : ℚ → ℚ
  backward : ℚ → ℚ

/-- The default shape: the `linear` base's `forward`/`backward` unchanged. -/
@[simp] def linear.conv (l : linear) : metric_conversion :=
  ⟨l.forward, l.backward⟩

/- The underlying `linear` of each specialization of
`metric_conversion_type`, with the constructor arguments of the source
(`m_divider` holds the reciprocal the constructor computes). -/
@[simp] def linear_gramm_lb : linear := ⟨453.592, 1 / 453.592, 0⟩
@[simp] def linear_gramm_pood : linear := ⟨16380.7, 1 / 16380.7, 0⟩
@[simp] def linear_meter_mile : linear := ⟨1609.34, 1 / 1609.34, 0⟩
@[simp] def linear_meter_verst : linear := ⟨1066.8, 1 / 1066.8, 0⟩
@[simp] def linear_celsius_fahrenheit : linear := ⟨9 / 5, 1 / (9 / 5), 32⟩
@[simp] def linear_celsius_kelvin : linear := ⟨1, 1 / 1, 273.15⟩

/- `metric_conversion_type` specializations. -/
@[simp] def mct_gramm_lb : metric_conversion := linear_gramm_lb.conv
@[simp] def mct_gramm_pood : metric_conversion := linear_gramm_pood.conv
@[simp] def mct_meter_mile : metric_conversion := linear_meter_mile.conv
@[simp] def mct_meter_verst : metric_conversion := linear_meter_verst.conv

/-- `metric_conversion_type<celsius, fahrenheit>` overrides `forward` to
call `linear::backward` and `backward` to call `linear::forward`. -/
@[simp] def mct_celsius_fahrenheit : metric_conversion :=
  ⟨linear_celsius_fahrenheit.backward, linear_celsius_fahrenheit.forward⟩

@[simp] def mct_celsius_kelvin : metric_conversion := linear_celsius_kelvin.conv

/-- A conversion entry as the responsible chain sees it: the two static
signatures plus the `convert` member of the metrics converter. -/
structure conversion_entry where
  from_signature : String
  to_signature : String
  convert : ℚ → ℚ

/-- `primary_metrics_converter<_primary,_minor,_direction>`: for
`_direction = true` the entry is (minor → primary) and `convert` calls
`forward`; for `false` it is (primary → minor) and calls `backward`;
a same-type pair short-circuits to the identity. -/
@[simp] def primary_metrics_converter (psig msig : String)
    (mc : metric_conversion) (direction : Bool) : conversion_entry :=
  { from_signature := if direction then msig else psig
    to_signature := if direction then psig else msig
    convert := fun value =>
      if psig = msig then value
      else if direction then mc.forward value
      else mc.backward value }

/-- `minor_metrics_converter<_primary,_first_minor,_second_minor>`:
entry (second_minor → first_minor); `convert` applies the first minor's
`backward`, then the second minor's `forward`; a same-type pair
short-circuits to the identity. -/
@[simp] def minor_metrics_converter (firstSig secondSig : String)
    (mcFirst mcSecond : metric_conversion) : conversion_entry :=
  { from_signature := secondSig
    to_signature := firstSig
    convert := fun value =>
      if firstSig = secondSig then value
      else mcSecond.forward (mcFirst.backward value) }

/-- `converter_traits<tuple<_primary,_minors...>>::type`: the group's
minor→primary entries (direction `true`), then primary→minor entries
(direction `false`), then all ordered minor pairs (including same-minor
pairs), in the `tuple_cat` order of the source. -/
@[simp] def converter_traits (psig : String)
    (minors : List (String × metric_conversion)) : List conversion_entry :=
  minors.map (fun m => primary_metrics_converter psig m.1 m.2 true) ++
  minors.map (fun m => primary_metrics_converter psig m.1 m.2 false) ++
  (minors.flatMap fun f => minors.map fun s =>
    minor_metrics_converter f.1 s.1 f.2 s.2)

/-- `weight_metrics`: the minors of primary `gramm`, with their
conversion specializations. -/
@[simp] def weight_metrics : List (String × metric_conversion) :=
  [(lb.signature, mct_gramm_lb), (pood.signature, mct_gramm_pood)]

/-- `distance_metrics`: the minors of primary `meter`. -/
@[simp] def distance_metrics : List (String × metric_conversion) :=
  [(mile.signature, mct_meter_mile), (verst.signature, mct_meter_verst)]

/-- `temperature_metrics`: the minors of primary `celsius`. -/
@[simp] def temperature_metrics : List (String × metric_conversion) :=
  [(fahrenheit.signature, mct_celsius_fahrenheit),
   (kelvin.signature, mct_celsius_kelvin)]

/-- The entries in the order `converter::converter` instantiates them:
weight, distance, temperature groups in turn, each responsible pushed at
the front of the chain — so the final chain is the reverse of the
concatenated declaration order. -/
@[simp] def responsible_chain : List conversion_entry :=
  (converter_traits gramm.signature weight_metrics ++
   converter_traits meter.signature distance_metrics ++
   converter_traits celsius.signature temperature_metrics).reverse

/-- `responsible_impl::process` along the chain: the first entry whose
`(from_signature, to_signature)` equals `(from, to)` converts the value;
an exhausted chain yields `nullopt`. -/
@[simp] def process_chain : List conversion_entry → String → String → ℚ → Option ℚ
  | [], _, _, _ => none
  | e :: rest, f, t, value =>
    if e.from_signature = f ∧ e.to_signature = t then some (e.convert value)
    else process_chain rest f t value

/-- `converter<weight_metrics, distance_metrics, temperature_metrics>::process`,
the core entry point used by `main.cpp`. -/
@[simp] def process (f t : String) (value : ℚ) : Option ℚ :=
  process_chain responsible_chain f t value

/-- A chain with no matching entry yields `nullopt`, by the recursion of
`responsible_impl::process`. -/
lemma process_chain_eq_none (l : List conversion_entry) (f t : String) (v : ℚ)
    (h : ∀ e ∈ l, ¬(e.from_signature = f ∧ e.to_signature = t)) :
    process_chain l f t v = none := by
  induction l with
  | nil => rfl
  | cons e rest ih =>
    have he := h e (List.mem_cons_self _ _)
    simp only [process_chain, if_neg he]
    exact ih fun e' he' => h e' (List.mem_cons_of_mem _ he')

/-- Claim C1: the spec states `process("c", "k", 0) = 273.15`.  The code
disagrees: the (celsius → kelvin) entry is `primary_metrics_converter`
with direction `false`, whose `convert` calls `backward` of the
`metric_conversion_type<celsius, kelvin>` specialization, `(0 - 273.15) * 1`;
the specialization lacks the direction swap the fahrenheit one has, so
the code returns `-273.15`. -/
theorem c1_celsius_kelvin_eval : process "c" "k" 0 = some (-273.15) := by
  simp

/-- Claim C2: the spec states `process("f", "k", 32) ≈ 273.15` and
`process("k", "f", 273.15) ≈ 32`.  The code disagrees: the (f → k) entry
composes `forward` of (celsius, fahrenheit) after `backward` of
(celsius, kelvin), giving `((32 - 273.15) - 32) / 1.8 = -151.75`, and the
(k → f) entry gives `1.8 * 273.15 + 32 + 273.15 = 796.82`. -/
theorem c2_temperature_minor_eval :
    process "f" "k" 32 = some (-151.75) ∧
    process "k" "f" 273.15 = some 796.82 := by
  refine ⟨?_, ?_⟩ <;> simp <;> norm_num

/-- Claim C3, as stated: it fails on the three primaries, whose
same-signature pair matches no conversion entry (`converter_traits` only
instantiates (primary, minor) and (minor, minor) converters), so
`process("g", "g", 5)` is the absence value, not `5`. -/
theorem c3_primary_identity_cex : process "g" "g" 5 ≠ some 5 := by
  simp

/-- Claim C3, amended (proved): for the six minor units the same-signature
conversion is the exact identity (the `is_same` short-circuit of the
minor/minor converter, no Transform applied), while for the three
primaries `"g"`, `"m"`, `"c"` the same-signature lookup matches no entry
and returns the absence value. -/
theorem c3_identity_amended (v : ℚ) :
    process "lb" "lb" v = some v ∧ process "p" "p" v = some v ∧
    process "ml" "ml" v = some v ∧ process "v" "v" v = some v ∧
    process "f" "f" v = some v ∧ process "k" "k" v = some v ∧
    process "g" "g" v = none ∧ process "m" "m" v = none ∧
    process "c" "c" v = none := by
  refine ⟨?_, ?_, ?_, ?_, ?_, ?_, ?_, ?_, ?_⟩ <;> simp

/-- Claim C3 amended, witness at `v = 5`. -/
theorem c3_identity_amended_witness :
    process "lb" "lb" 5 = some 5 ∧ process "g" "g" 5 = none :=
  ⟨(c3_identity_amended 5).1, (c3_identity_amended 5).2.2.2.2.2.2.1⟩

/-- Claim C4 (confirmed): `process("c", "f", 0) = 32` and
`process("f", "c", 32) = 0`: the celsius/fahrenheit specialization swaps
`forward`/`backward`, so the (c → f) entry computes `1.8 * 0 + 32` and
the (f → c) entry computes `(32 - 32) / 1.8`, both exact. -/
theorem c4_direction_swap :
    process "c" "f" 0 = some 32 ∧ process "f" "c" 32 = some 0 := by
  refine ⟨?_, ?_⟩ <;> simp

/-- Claim C5 (confirmed): whenever no entry of the chain carries the
requested `(from, to)` pair, `process` returns the absence value `none`
(never a fault); in particular for the cross-group pair `("g", "m")` and
the unrecognized signature `"xx"`. -/
theorem c5_no_match :
    process "g" "m" 5 = none ∧ process "xx" "g" 5 = none ∧
    ∀ f t : String, ∀ v : ℚ,
      (∀ e ∈ responsible_chain, ¬(e.from_signature = f ∧ e.to_signature = t)) →
      process f t v = none := by
  refine ⟨by simp, by simp, fun f t v h => process_chain_eq_none _ f t v h⟩

/-- Claim C5, witness: the pair `("q", "qq")` occurs nowhere in the
chain, and `process` returns `none` on it. -/
theorem c5_no_match_witness : process "q" "qq" 1 = none :=
  c5_no_match.2.2 "q" "qq" 1 (by decide)

/-- Claim C6 (confirmed): `process("g", "lb", 1000)` returns exactly
`1000 / 453.592` (the (g → lb) entry multiplies by the cached reciprocal
of the declared factor 453.592), which is within `10⁻⁵` of the spec's
approximate value 2.20462. -/
theorem c6_gramm_lb :
    process "g" "lb" 1000 = some (1000 / 453.592) ∧
    |1000 / 453.592 - (2.20462 : ℚ)| < 1 / 10 ^ 5 := by
  refine ⟨by simp; norm_num, by norm_num [abs_lt]⟩

/-- Claim C7 (confirmed): the `linear` constructor faults (returns `none`
in the model) for factors 0 and `1e-12`, whose magnitude is below the
`1e-10` epsilon, and succeeds on every (factor, offset) pair of the
declared catalog, producing exactly the cached specializations. -/
theorem c7_construction_guard :
    linear.construct 0 0 = none ∧
    linear.construct (1 / 10 ^ 12) 0 = none ∧
    linear.construct 453.592 0 = some linear_gramm_lb ∧
    linear.construct 16380.7 0 = some linear_gramm_pood ∧
    linear.construct 1609.34 0 = some linear_meter_mile ∧
    linear.construct 1066.8 0 = some linear_meter_verst ∧
    linear.construct (9 / 5) 32 = some linear_celsius_fahrenheit ∧
    linear.construct 1 273.15 = some linear_celsius_kelvin := by
  refine ⟨?_, ?_, ?_, ?_, ?_, ?_, ?_, ?_⟩ <;> norm_num [abs_of_pos]

/-- Claim C8 (confirmed): for each of the six declared primary/minor
specializations — the direction-swapped celsius/fahrenheit one included —
`backward` and `forward` are exact mutual inverses in the arithmetic the
code performs (the float pipeline only adds rounding). -/
theorem c8_transform_roundtrip (v : ℚ) :
    (mct_gramm_lb.backward (mct_gramm_lb.forward v) = v ∧
     mct_gramm_lb.forward (mct_gramm_lb.backward v) = v) ∧
    (mct_gramm_pood.backward (mct_gramm_pood.forward v) = v ∧
     mct_gramm_pood.forward (mct_gramm_pood.backward v) = v) ∧
    (mct_meter_mile.backward (mct_meter_mile.forward v) = v ∧
     mct_meter_mile.forward (mct_meter_mile.backward v) = v) ∧
    (mct_meter_verst.backward (mct_meter_verst.forward v) = v ∧
     mct_meter_verst.forward (mct_meter_verst.backward v) = v) ∧
    (mct_celsius_fahrenheit.backward (mct_celsius_fahrenheit.forward v) = v ∧
     mct_celsius_fahrenheit.forward (mct_celsius_fahrenheit.backward v) = v) ∧
    (mct_celsius_kelvin.backward (mct_celsius_kelvin.forward v) = v ∧
     mct_celsius_kelvin.forward (mct_celsius_kelvin.backward v) = v) := by
  refine ⟨⟨?_, ?_⟩, ⟨?_, ?_⟩, ⟨?_, ?_⟩, ⟨?_, ?_⟩, ⟨?_, ?_⟩, ⟨?_, ?_⟩⟩ <;>
    simp <;> ring

/-- Claim C8, witness at `v = 2`. -/
theorem c8_transform_roundtrip_witness :
    mct_gramm_lb.backward (mct_gramm_lb.forward 2) = 2 :=
  (c8_transform_roundtrip 2).1.1

/-- Claim C9 (confirmed): for each ordered pair of distinct minors of one
group, converting and then converting back returns the input exactly in
the arithmetic the code performs: the two composed minor–minor entries
are mutual inverses (this holds even for the temperature pair, whose
composed entries are individually wrong but still inverse to each
other). -/
theorem c9_minor_roundtrip (v : ℚ) :
    (process "lb" "p" v).bind (process "p" "lb") = some v ∧
    (process "p" "lb" v).bind (process "lb" "p") = some v ∧
    (process "ml" "v" v).bind (process "v" "ml") = some v ∧
    (process "v" "ml" v).bind (process "ml" "v") = some v ∧
    (process "f" "k" v).bind (process "k" "f") = some v ∧
    (process "k" "f" v).bind (process "f" "k") = some v := by
  refine ⟨?_, ?_, ?_, ?_, ?_, ?_⟩ <;> simp <;> ring

/-- Claim C9, witness at `v = 7`. -/
theorem c9_minor_roundtrip_witness :
    (process "lb" "p" 7).bind (process "p" "lb") = some 7 :=
  (c9_minor_roundtrip 7).1

/-- Claim C10 (confirmed): for the zero-offset groups the minor–minor
entry computes exactly `v * factor(primary, second) / factor(primary,
first)` — the correct ratio conversion — because with offset 0 the first
minor's `backward` and the second minor's `forward` are scalings, which
commute. -/
theorem c10_zero_offset_ratio (v : ℚ) :
    process "p" "lb" v = some (v * 16380.7 / 453.592) ∧
    process "lb" "p" v = some (v * 453.592 / 16380.7) ∧
    process "v" "ml" v = some (v * 1066.8 / 1609.34) ∧
    process "ml" "v" v = some (v * 1609.34 / 1066.8) := by
  refine ⟨?_, ?_, ?_, ?_⟩ <;> simp <;> ring

/-- Claim C10, witness at `v = 3`. -/
theorem c10_zero_offset_ratio_witness :
    process "p" "lb" 3 = some (3 * 16380.7 / 453.592) :=
  (c10_zero_offset_ratio 3).1

end Converter
